import Mathlib

/-!
Shallow embedding of `src/DEDA_class_SoSe2023_LDA_MSc_Theses/LDA_with_Grid.py`.

The Python class `LDA` wraps an external topic-modeling library (gensim).
The library calls are opaque to the orchestration logic verified here, so the
embedding takes them as function parameters:

* `fit n alpha beta` stands for `get_coherence_score(n, alpha, beta)`
  (fit an LdaModel with the pinned random seed and score it): it returns the
  pair `(coherence score, fitted model)`.  Modelling it as a function makes the
  fit deterministic in its parameters, which matches the pinned
  `random_state = 66` in the source.
* `perp m` stands for `m.log_perplexity(self.corpus)` (the corpus is fixed).
* `print_topics m` stands for `m.print_topics()`, a list of
  (topic number, keyword string) pairs.
* `prepare m` stands for `pyLDAvis.gensim_models.prepare(m, corpus, dictionary)`.
* `ldaseq` stands for the `LdaSeqModel` constructor.

Scores are rationals (`ℚ`) in place of Python floats; alpha/beta density
parameters are also `ℚ` scalars.  `self.dates` entries are consumed only
through `item[0]` followed by `int(...)`, so dates are embedded directly as the
list of per-document year values (`List Int`).

File-system side effects (`model.save`, `to_csv`, `save_html`) are embedded as
explicit lists of written paths / written tabular contents returned by each
method; a Python exception aborts the method before any of its writes in every
method modelled here, which the embedding mirrors by returning an empty write
list together with the error.
-/

namespace LDAGrid

/-- Python exception values raised by the methods of `LDA` (or by the runtime
itself, as for subscripting `None`). -/
inductive PyError where
  | exception (msg : String)
  | valueError (msg : String)
  | typeError (msg : String)
deriving DecidableEq, Repr

/-- The not-configured error kind of the spec: a descriptive `Exception`
raised by an explicit missing-prerequisite check (`raise Exception(...)` in the
source).  `TypeError`/`ValueError` are not of this kind. -/
def PyError.is_not_configured : PyError → Bool
  | .exception _ => true
  | _ => false

/-- One Trial Record, as appended to `self.scores` in `grid_search`
(lines 188-193 of the source). -/
structure Trial where
  n_topics : Nat
  alpha : ℚ
  beta : ℚ
  coherence_score : ℚ
  perplexity_score : ℚ
deriving DecidableEq, Repr

/-- The mutable state of an `LDA` instance: the fields assigned in
`__init__` (lines 36-58), minus the four immutable inputs (corpus, dictionary,
texts, dates) which the opaque library-call parameters close over, plus
`scores` which `grid_search` creates.  `M` is the opaque fitted-model type. -/
structure LDAState (M : Type) where
  simple_model : Option M
  best_params : Option (Nat × ℚ × ℚ)
  best_score : ℚ
  best_model : Option M
  time_slice : Option (List Nat)
  scores : List Trial
deriving DecidableEq, Repr

/-- `LDA.__init__`: the sentinel values set at lines 44-58 of the source
(`self.scores` does not exist before the first `grid_search`; it is embedded
as the empty list). -/
def initState (M : Type) : LDAState M :=
  { simple_model := none
    best_params := none
    best_score := -1
    best_model := none
    time_slice := none
    scores := [] }

/-- The body of the innermost loop of `LDA.grid_search` (lines 182-201):
fit and score one parameter combination, append its Trial Record, and update
the running best on strict improvement. -/
def trialStep {M : Type} (fit : Nat → ℚ → ℚ → ℚ × M) (perp : M → ℚ)
    (st : LDAState M) (n : Nat) (alpha beta : ℚ) : LDAState M :=
  let cm := fit n alpha beta
  let coherence_score := cm.1
  let model := cm.2
  let perplexity_score := perp model
  let st' := { st with
    scores := st.scores ++
      [{ n_topics := n, alpha := alpha, beta := beta,
         coherence_score := coherence_score,
         perplexity_score := perplexity_score }] }
  if coherence_score > st'.best_score then
    { st' with
      best_score := coherence_score
      best_params := some (n, alpha, beta)
      best_model := some model }
  else st'

/-- `LDA.grid_search` (lines 161-214): reset `self.scores` to `[]`, then the
triple nested loop over `n_topics` (outer), `alphas` (middle), `betas`
(inner).  The final `to_csv` writes exactly `st.scores` (see
`grid_search_csv_rows`). -/
def grid_search {M : Type} (fit : Nat → ℚ → ℚ → ℚ × M) (perp : M → ℚ)
    (n_topics : List Nat) (alphas betas : List ℚ) (st : LDAState M) :
    LDAState M :=
  let st0 := { st with scores := [] }
  n_topics.foldl (fun st1 n =>
    alphas.foldl (fun st2 alpha =>
      betas.foldl (fun st3 beta => trialStep fit perp st3 n alpha beta) st2)
      st1) st0

/-- The rows persisted to `Topics_CSVs/scores_from_search.csv` at the end of
`grid_search` (line 208/214: `pd.DataFrame(self.scores).to_csv(...)`). -/
def grid_search_csv_rows {M : Type} (st : LDAState M) : List Trial :=
  st.scores

/-- The grid in iteration order: for each `n` (outer), each `alpha` (middle),
each `beta` (inner). -/
def gridTriples (n_topics : List Nat) (alphas betas : List ℚ) :
    List (Nat × ℚ × ℚ) :=
  n_topics.flatMap fun n =>
    alphas.flatMap fun alpha =>
      betas.map fun beta => (n, alpha, beta)

/-- The Trial Record produced for one grid point. -/
def mkTrial {M : Type} (fit : Nat → ℚ → ℚ → ℚ × M) (perp : M → ℚ)
    (t : Nat × ℚ × ℚ) : Trial :=
  { n_topics := t.1, alpha := t.2.1, beta := t.2.2,
    coherence_score := (fit t.1 t.2.1 t.2.2).1,
    perplexity_score := perp (fit t.1 t.2.1 t.2.2).2 }

/-- One step of building the `year_counts` dict in `LDA.time_slicer`
(lines 359-365): a Python dict is insertion-ordered, so it is embedded as an
association list; an existing key is bumped in place, a new key is appended
with count 1. -/
def bump (acc : List (Int × Nat)) (year : Int) : List (Int × Nat) :=
  if acc.any (fun p => p.1 = year) then
    acc.map (fun p => if p.1 = year then (p.1, p.2 + 1) else p)
  else acc ++ [(year, 1)]

/-- The `year_counts` dict of `LDA.time_slicer`: occurrence counts of each
year of `self.dates`, keyed in first-occurrence order. -/
def year_counts (dates : List Int) : List (Int × Nat) :=
  dates.foldl bump []

/-- The inner loop of lines 373-376 of `LDA.time_slicer` for one
`(key, value)` pair of `year_counts`: add `value` to `batches_counts[index]`
for every index whose batch contains the year.  `batches_counts` is a dict
keyed by consecutive indices, embedded as a positional list. -/
def addYearToBatches (year_batches : List (List Int)) (year : Int)
    (value : Nat) (counts : List Nat) : List Nat :=
  List.zipWith (fun batch c => if year ∈ batch then c + value else c)
    year_batches counts

/-- `LDA.time_slicer` (lines 343-381): count documents per year, initialise a
zero count per batch (lines 369-371), then fold every year's count into every
batch containing that year; the result (`list(batches_counts.values())`) is in
batch order.  `self.dates` enters only through the years `item[0]`, and the
year ranges have already been materialised by
`year_batches = [list(item) for item in year_batches]` (line 368), so the
argument is `List (List Int)`. -/
def time_slicer (dates : List Int) (year_batches : List (List Int)) :
    List Nat :=
  (year_counts dates).foldl
    (fun counts kv => addYearToBatches year_batches kv.1 kv.2 counts)
    (year_batches.map fun _ => 0)

/-- `LDA.time_slicer` as the method: it also caches the result in
`self.time_slice` (line 377). -/
def time_slicer_method {M : Type} (dates : List Int)
    (year_batches : List (List Int)) (st : LDAState M) :
    LDAState M × List Nat :=
  let ts := time_slicer dates year_batches
  ({ st with time_slice := some ts }, ts)

/-- The coherence score of one grid point. -/
def key {M : Type} (fit : Nat → ℚ → ℚ → ℚ × M) (t : Nat × ℚ × ℚ) : ℚ :=
  (fit t.1 t.2.1 t.2.2).1

/-- `grid_search` after the `self.scores = []` reset, seen as one fold over
the flattened grid. -/
def runTrials {M : Type} (fit : Nat → ℚ → ℚ → ℚ × M) (perp : M → ℚ)
    (ts : List (Nat × ℚ × ℚ)) (st : LDAState M) : LDAState M :=
  ts.foldl (fun s t => trialStep fit perp s t.1 t.2.1 t.2.2) st

/-- The Best-Trial State picks out the first Trial Record (in iteration
order) achieving the maximum coherence score: `find?` returns the first
record whose coherence equals `best_score`, every record's coherence is
bounded by `best_score`, and `best_params`/`best_model` are that record's
parameters and the model fitted at them. -/
def BestIsFirstMax {M : Type} (fit : Nat → ℚ → ℚ → ℚ × M)
    (st : LDAState M) : Prop :=
  ∃ r, st.scores.find? (fun r' => r'.coherence_score == st.best_score)
        = some r ∧
    st.best_score = r.coherence_score ∧
    st.best_params = some (r.n_topics, r.alpha, r.beta) ∧
    st.best_model = some (fit r.n_topics r.alpha r.beta).2 ∧
    ∀ r' ∈ st.scores, r'.coherence_score ≤ st.best_score

/-- The Best-Trial State is still at the `__init__` sentinel and no Trial
Record exists. -/
def SentinelState {M : Type} (st : LDAState M) : Prop :=
  st.scores = [] ∧ st.best_score = -1 ∧ st.best_params = none ∧
    st.best_model = none

/-- Keys of an association list standing for a Python dict are pairwise
distinct. -/
def NodupKeys (acc : List (Int × Nat)) : Prop :=
  acc.Pairwise fun p q => p.1 ≠ q.1

/-- Total count carried into one batch by an association list of
year counts. -/
def wsum (batch : List Int) (yc : List (Int × Nat)) : Nat :=
  (yc.map fun p => if p.1 ∈ batch then p.2 else 0).sum

/-- A concrete library instantiation for closed evaluations: every fit
returns coherence 1/2 and a `Unit` model. -/
def constFit : Nat → ℚ → ℚ → ℚ × Unit := fun _ _ _ => (1 / 2, ())

/-- A concrete library instantiation for closed evaluations: every fit
returns coherence 0 and a `Unit` model. -/
def zeroFit : Nat → ℚ → ℚ → ℚ × Unit := fun _ _ _ => (0, ())

/-- A concrete perplexity oracle for closed evaluations. -/
def zeroPerp : Unit → ℚ := fun _ => 0

/-- A concrete state whose Best-Trial State was already set (score 5, params
(7, 1, 1)) by an earlier search, for closed evaluations. -/
def staleState : LDAState Unit :=
  { simple_model := none
    best_params := some (7, 1, 1)
    best_score := 5
    best_model := some ()
    time_slice := none
    scores := [] }

/-- A tabular artifact written by a method: path and rows. -/
structure CsvFile where
  path : String
  rows : List (List String)
deriving DecidableEq, Repr

/-- The non-state outputs of a method call: its return value (or the Python
exception that aborted it), the model files it saved, and the CSV files it
wrote. -/
structure MethodResult (R : Type) where
  result : Except PyError R
  saved_models : List String
  csv_files : List CsvFile

/-- `LDA.build_best_model` (lines 260-301).  `if self.best_params:` is Python
truthiness: `None` is falsy and a 3-tuple is always truthy, so it is exactly a
match on the option.  On success the model is re-fitted from the recorded
best `(n, alpha, beta)` via `get_coherence_score` (line 274), saved, and its
topics are exported to `Topics_CSVs/best_topics.csv` with a
`['Topic N', 'Keywords']` header row; the method assigns no instance
attribute, so the state is returned unchanged.  When `best_params` is unset
the `raise` is the only statement executed, so nothing is written. -/
def build_best_model {M : Type} (fit : Nat → ℚ → ℚ → ℚ × M)
    (print_topics : M → List (Nat × String)) (st : LDAState M) :
    LDAState M × MethodResult M :=
  match st.best_params with
  | some (n, alpha, beta) =>
      let model := (fit n alpha beta).2
      let topics := print_topics model
      (st,
       { result := .ok model
         saved_models := ["LDAModels_Gensim/Grid_Best_MSc_LDA.gensim"]
         csv_files := [{ path := "Topics_CSVs/best_topics.csv",
                         rows := ["Topic N", "Keywords"] ::
                           topics.map fun t => [toString t.1, t.2] }] })
  | none =>
      (st,
       { result := .error (.exception
           "No parameters found for the best model. Make sure you have run the grid search already.")
         saved_models := []
         csv_files := [] })

/-- `LDA.viz` (lines 304-341).  `V` is the opaque pyLDAvis visualization
type; `prepare` stands for `gensimvis.prepare(model, corpus, dictionary)`.
Returns the result together with the list of HTML paths written; each `raise`
occurs before any write. -/
def viz {M V : Type} (prepare : M → V) (st : LDAState M)
    (model_type : String) : Except PyError V × List String :=
  if model_type = "best" then
    match st.best_model with
    | none => (.error (.exception "No best model found. Run grid_search first."), [])
    | some model =>
        (.ok (prepare model), ["Plots/lda_" ++ model_type ++ "_viz.html"])
  else if model_type = "simple" then
    match st.simple_model with
    | none => (.error (.exception "No simple model found. Run simple_fit() first."), [])
    | some model =>
        (.ok (prepare model), ["Plots/lda_" ++ model_type ++ "_viz.html"])
  else
    (.error (.valueError
      "Model type not valid. Please select either \"best\" or \"simple\"."), [])

/-- `LDA.DTM` (lines 384-450).  `DM` is the opaque sequential-model type and
`ldaseq time_slice num_topics alphas lda_model` stands for the
`LdaSeqModel(...)` constructor call of line 397.  When `self.best_params` is
`None`, evaluating the argument `num_topics = self.best_params[0]` raises
`TypeError` (`None` is not subscriptable) before the constructor runs and
before any file is saved.  On success the model is saved and one CSV is
written per topic (`range(0, self.best_params[0])`, lines 410-448); the
tabular contents delegate entirely to the library output, so only the paths
are recorded. -/
def DTM {M DM : Type}
    (ldaseq : Option (List Nat) → Nat → ℚ → Option M → DM)
    (st : LDAState M) (year_batches : List (List Int)) :
    Except PyError DM × List String :=
  match st.best_params with
  | none =>
      (.error (.typeError "NoneType object is not subscriptable"), [])
  | some (n, alpha, _beta) =>
      let seq_m := ldaseq st.time_slice n alpha st.best_model
      let _ := year_batches
      (.ok seq_m,
       "LDAModels_Gensim/DTM_model.gensim" ::
         (List.range n).map fun i =>
           "Topics_CSVs/topics_words_time/topic" ++ toString (i + 1) ++
             "_words_time.csv")

/-! ## Structural lemmas about `grid_search` -/

lemma grid_search_eq_runTrials {M : Type} (fit : Nat → ℚ → ℚ → ℚ × M)
    (perp : M → ℚ) (n_topics : List Nat) (alphas betas : List ℚ)
    (st : LDAState M) :
    grid_search fit perp n_topics alphas betas st
      = runTrials fit perp (gridTriples n_topics alphas betas)
          { st with scores := [] } := by
  simp [grid_search, runTrials, gridTriples, List.flatMap_def,
    List.foldl_flatten, List.foldl_map]

lemma trialStep_scores {M : Type} (fit : Nat → ℚ → ℚ → ℚ × M)
    (perp : M → ℚ) (st : LDAState M) (n : Nat) (alpha beta : ℚ) :
    (trialStep fit perp st n alpha beta).scores
      = st.scores ++ [mkTrial fit perp (n, alpha, beta)] := by
  by_cases h : (fit n alpha beta).1 > st.best_score <;>
    simp [trialStep, mkTrial, h]

lemma runTrials_scores {M : Type} (fit : Nat → ℚ → ℚ → ℚ × M)
    (perp : M → ℚ) (ts : List (Nat × ℚ × ℚ)) (st : LDAState M) :
    (runTrials fit perp ts st).scores
      = st.scores ++ ts.map (mkTrial fit perp) := by
  induction ts generalizing st with
  | nil => simp [runTrials]
  | cons t ts ih =>
    simp only [runTrials, List.foldl_cons]
    rw [show List.foldl _ (trialStep fit perp st t.1 t.2.1 t.2.2) ts
          = runTrials fit perp ts (trialStep fit perp st t.1 t.2.1 t.2.2)
        from rfl, ih, trialStep_scores]
    simp

lemma grid_search_scores {M : Type} (fit : Nat → ℚ → ℚ → ℚ × M)
    (perp : M → ℚ) (n_topics : List Nat) (alphas betas : List ℚ)
    (st : LDAState M) :
    (grid_search fit perp n_topics alphas betas st).scores
      = (gridTriples n_topics alphas betas).map (mkTrial fit perp) := by
  rw [grid_search_eq_runTrials, runTrials_scores]
  simp

/-- Claim C3: `grid_search` enumerates the Cartesian product with
`n_topics` as the outer loop, `alphas` middle, `betas` inner, appending
exactly one Trial Record per combination in that order; in particular, for
`n_topics = [2, 3]`, `alphas = [1/10]`, `betas = [1/10]` it produces exactly
the two Trial Records `(2, 1/10, 1/10)` then `(3, 1/10, 1/10)`. -/
theorem grid_search_enumeration_order {M : Type} (fit : Nat → ℚ → ℚ → ℚ × M)
    (perp : M → ℚ) (st : LDAState M) :
    (∀ (n_topics : List Nat) (alphas betas : List ℚ),
      (grid_search fit perp n_topics alphas betas st).scores
        = (gridTriples n_topics alphas betas).map (mkTrial fit perp)) ∧
    (grid_search fit perp [2, 3] [1/10] [1/10] st).scores.map
        (fun r => (r.n_topics, r.alpha, r.beta))
      = [(2, 1/10, 1/10), (3, 1/10, 1/10)] := by
  refine ⟨fun n_topics alphas betas => grid_search_scores .., ?_⟩
  rw [grid_search_scores]
  simp [gridTriples, mkTrial]

/-- Claim C4: if any of the three grid axes is empty, `grid_search` runs
zero trials and leaves the state exactly at the `__init__` sentinel:
no Trial Records, `best_score = -1`, `best_params` and `best_model`
unset. -/
theorem grid_search_empty_axis {M : Type} (fit : Nat → ℚ → ℚ → ℚ × M)
    (perp : M → ℚ) (n_topics : List Nat) (alphas betas : List ℚ)
    (h : n_topics = [] ∨ alphas = [] ∨ betas = []) :
    grid_search fit perp n_topics alphas betas (initState M) = initState M ∧
    (grid_search fit perp n_topics alphas betas (initState M)).scores = [] ∧
    (grid_search fit perp n_topics alphas betas (initState M)).best_score
      = -1 ∧
    (grid_search fit perp n_topics alphas betas (initState M)).best_params
      = none ∧
    (grid_search fit perp n_topics alphas betas (initState M)).best_model
      = none := by
  have hg : gridTriples n_topics alphas betas = [] := by
    rcases h with h | h | h <;> simp [gridTriples, h]
  have : grid_search fit perp n_topics alphas betas (initState M)
      = initState M := by
    rw [grid_search_eq_runTrials, hg]
    rfl
  refine ⟨this, ?_, ?_, ?_, ?_⟩ <;> rw [this] <;> rfl

/-- Witness for C4 at an empty `alphas` axis. -/
theorem grid_search_empty_axis_witness :
    grid_search constFit zeroPerp [2, 3] [] [1] (initState Unit)
      = initState Unit ∧
    (grid_search constFit zeroPerp [2, 3] [] [1] (initState Unit)).scores
      = [] ∧
    (grid_search constFit zeroPerp [2, 3] [] [1] (initState Unit)).best_score
      = -1 ∧
    (grid_search constFit zeroPerp [2, 3] [] [1]
      (initState Unit)).best_params = none ∧
    (grid_search constFit zeroPerp [2, 3] [] [1]
      (initState Unit)).best_model = none :=
  grid_search_empty_axis constFit zeroPerp [2, 3] [] [1]
    (Or.inr (Or.inl rfl))

/-! ## The running-best invariant of `grid_search` -/

lemma trialStep_of_gt {M : Type} (fit : Nat → ℚ → ℚ → ℚ × M) (perp : M → ℚ)
    (st : LDAState M) (n : Nat) (alpha beta : ℚ)
    (h : (fit n alpha beta).1 > st.best_score) :
    trialStep fit perp st n alpha beta
      = { st with
          scores := st.scores ++ [mkTrial fit perp (n, alpha, beta)]
          best_score := (fit n alpha beta).1
          best_params := some (n, alpha, beta)
          best_model := some (fit n alpha beta).2 } := by
  simp [trialStep, mkTrial, h]

lemma trialStep_of_not_gt {M : Type} (fit : Nat → ℚ → ℚ → ℚ × M)
    (perp : M → ℚ) (st : LDAState M) (n : Nat) (alpha beta : ℚ)
    (h : ¬ (fit n alpha beta).1 > st.best_score) :
    trialStep fit perp st n alpha beta
      = { st with scores := st.scores ++ [mkTrial fit perp (n, alpha, beta)] } := by
  simp [trialStep, mkTrial, h]

lemma bestIsFirstMax_trialStep {M : Type} (fit : Nat → ℚ → ℚ → ℚ × M)
    (perp : M → ℚ) (st : LDAState M) (n : Nat) (alpha beta : ℚ)
    (hc : -1 < (fit n alpha beta).1)
    (h : SentinelState st ∨ BestIsFirstMax fit st) :
    BestIsFirstMax fit (trialStep fit perp st n alpha beta) := by
  rcases h with ⟨hs, hb, _, _⟩ | ⟨r, hfind, hscore, hparams, hmodel, hub⟩
  · have hgt : (fit n alpha beta).1 > st.best_score := by rw [hb]; exact hc
    rw [trialStep_of_gt fit perp st n alpha beta hgt]
    refine ⟨mkTrial fit perp (n, alpha, beta), ?_, rfl, rfl, rfl, ?_⟩
    · simp [hs, List.find?, mkTrial]
    · intro r' hr'
      simp [hs, mkTrial] at hr'
      simp [hr', mkTrial]
  · by_cases hgt : (fit n alpha beta).1 > st.best_score
    · rw [trialStep_of_gt fit perp st n alpha beta hgt]
      refine ⟨mkTrial fit perp (n, alpha, beta), ?_, rfl, rfl, rfl, ?_⟩
      · have hnone : st.scores.find?
            (fun r' => r'.coherence_score == (fit n alpha beta).1) = none := by
          rw [List.find?_eq_none]
          intro x hx
          simp only [beq_iff_eq]
          exact ne_of_lt (lt_of_le_of_lt (hub x hx) hgt)
        simp [List.find?_append, hnone, List.find?, mkTrial]
      · intro r' hr'
        rcases List.mem_append.mp hr' with hr' | hr'
        · exact le_of_lt (lt_of_le_of_lt (hub r' hr') hgt)
        · simp at hr'
          simp [hr', mkTrial]
    · rw [trialStep_of_not_gt fit perp st n alpha beta hgt]
      refine ⟨r, ?_, hscore, hparams, hmodel, ?_⟩
      · simpa [List.find?_append] using Or.inl hfind
      · intro r' hr'
        rcases List.mem_append.mp hr' with hr' | hr'
        · exact hub r' hr'
        · simp at hr'
          simp [hr', mkTrial]
          exact not_lt.mp hgt

lemma bestInv_runTrials {M : Type} (fit : Nat → ℚ → ℚ → ℚ × M)
    (perp : M → ℚ) (ts : List (Nat × ℚ × ℚ)) (st : LDAState M)
    (hc : ∀ t ∈ ts, -1 < key fit t)
    (h : SentinelState st ∨ BestIsFirstMax fit st) :
    SentinelState (runTrials fit perp ts st)
      ∨ BestIsFirstMax fit (runTrials fit perp ts st) := by
  induction ts generalizing st with
  | nil => exact h
  | cons t ts ih =>
    exact ih (trialStep fit perp st t.1 t.2.1 t.2.2)
      (fun t' ht' => hc t' (List.mem_cons_of_mem _ ht'))
      (Or.inr (bestIsFirstMax_trialStep fit perp st t.1 t.2.1 t.2.2
        (hc t (List.mem_cons_self t ts)) h))

lemma gridTriples_ne_nil {n_topics : List Nat} {alphas betas : List ℚ}
    (h1 : n_topics ≠ []) (h2 : alphas ≠ []) (h3 : betas ≠ []) :
    gridTriples n_topics alphas betas ≠ [] := by
  obtain ⟨n, ns', rfl⟩ := List.exists_cons_of_ne_nil h1
  obtain ⟨a, as', rfl⟩ := List.exists_cons_of_ne_nil h2
  obtain ⟨b, bs', rfl⟩ := List.exists_cons_of_ne_nil h3
  simp [gridTriples]

/-- Claim C1: after `grid_search` over non-empty axes on a fresh `LDA`
instance (coherence scores exceed the `-1` sentinel, as c_v coherence
nominally lies in [0,1]), the Best-Trial State's score is the maximum
coherence score among all Trial Records produced, and
`best_params`/`best_model` correspond to the first trial in iteration order
achieving that maximum, because the comparison against the running best is
strict `>`. -/
theorem grid_search_best_is_first_max {M : Type} (fit : Nat → ℚ → ℚ → ℚ × M)
    (perp : M → ℚ) (n_topics : List Nat) (alphas betas : List ℚ)
    (hfit : ∀ n alpha beta, -1 < (fit n alpha beta).1)
    (h1 : n_topics ≠ []) (h2 : alphas ≠ []) (h3 : betas ≠ []) :
    BestIsFirstMax fit
      (grid_search fit perp n_topics alphas betas (initState M)) := by
  have hg := bestInv_runTrials fit perp (gridTriples n_topics alphas betas)
    { initState M with scores := [] }
    (fun t _ => hfit t.1 t.2.1 t.2.2)
    (Or.inl ⟨rfl, rfl, rfl, rfl⟩)
  rw [grid_search_eq_runTrials]
  rcases hg with hS | hB
  · exfalso
    have hsc := hS.1
    rw [runTrials_scores] at hsc
    simp at hsc
    exact gridTriples_ne_nil h1 h2 h3 hsc
  · exact hB

/-- Witness for C1 on a one-point grid with constant coherence 1/2. -/
theorem grid_search_best_is_first_max_witness :
    BestIsFirstMax constFit
      (grid_search constFit zeroPerp [2] [1/10] [1/10] (initState Unit)) :=
  grid_search_best_is_first_max constFit zeroPerp [2] [1/10] [1/10]
    (fun _ _ _ => by norm_num [constFit]) (by decide) (by decide) (by decide)

lemma runTrials_best_of_lt {M : Type} (fit : Nat → ℚ → ℚ → ℚ × M)
    (perp : M → ℚ) (ts : List (Nat × ℚ × ℚ)) (st : LDAState M)
    (h : ∀ t ∈ ts, key fit t < st.best_score) :
    (runTrials fit perp ts st).best_score = st.best_score ∧
    (runTrials fit perp ts st).best_params = st.best_params ∧
    (runTrials fit perp ts st).best_model = st.best_model := by
  induction ts generalizing st with
  | nil => exact ⟨rfl, rfl, rfl⟩
  | cons t ts ih =>
    have hne : ¬ (fit t.1 t.2.1 t.2.2).1 > st.best_score :=
      not_lt.mpr (le_of_lt (h t (List.mem_cons_self t ts)))
    have hstep := trialStep_of_not_gt fit perp st t.1 t.2.1 t.2.2 hne
    have hrun : runTrials fit perp (t :: ts) st
        = runTrials fit perp ts (trialStep fit perp st t.1 t.2.1 t.2.2) := rfl
    rw [hrun, hstep]
    exact ih _ fun t' ht' => h t' (List.mem_cons_of_mem _ ht')

/-- Claim C10: a second call to `grid_search` replaces the trial log
(`self.scores` is reset at entry) but leaves `best_score`/`best_params`/
`best_model` untouched; hence when every trial of the second search scores
strictly below the recorded best, the Best-Trial State afterwards matches no
record in the current trial log, nor any row of the persisted
`scores_from_search.csv` (whose rows are exactly the current log). -/
theorem grid_search_stale_best {M : Type} (fit : Nat → ℚ → ℚ → ℚ × M)
    (perp : M → ℚ) (n_topics : List Nat) (alphas betas : List ℚ)
    (st : LDAState M)
    (h : ∀ t ∈ gridTriples n_topics alphas betas, key fit t < st.best_score) :
    (grid_search fit perp n_topics alphas betas st).best_score
      = st.best_score ∧
    (grid_search fit perp n_topics alphas betas st).best_params
      = st.best_params ∧
    (grid_search fit perp n_topics alphas betas st).best_model
      = st.best_model ∧
    (grid_search fit perp n_topics alphas betas st).scores
      = (gridTriples n_topics alphas betas).map (mkTrial fit perp) ∧
    ∀ r ∈ grid_search_csv_rows (grid_search fit perp n_topics alphas betas st),
      r.coherence_score
        ≠ (grid_search fit perp n_topics alphas betas st).best_score := by
  have hb : (grid_search fit perp n_topics alphas betas st).best_score
        = st.best_score ∧
      (grid_search fit perp n_topics alphas betas st).best_params
        = st.best_params ∧
      (grid_search fit perp n_topics alphas betas st).best_model
        = st.best_model := by
    rw [grid_search_eq_runTrials]
    exact runTrials_best_of_lt fit perp _ _ h
  refine ⟨hb.1, hb.2.1, hb.2.2, grid_search_scores .., ?_⟩
  intro r hr
  rw [grid_search_csv_rows, grid_search_scores] at hr
  obtain ⟨t, ht, rfl⟩ := List.mem_map.mp hr
  rw [hb.1]
  exact ne_of_lt (h t ht)

/-- Witness for C10: a prior best of 5 and a one-point second search whose
trial scores 0. -/
theorem grid_search_stale_best_witness :
    (grid_search zeroFit zeroPerp [2] [1] [1] staleState).best_score = 5 ∧
    (grid_search zeroFit zeroPerp [2] [1] [1] staleState).best_params
      = some (7, 1, 1) ∧
    (grid_search zeroFit zeroPerp [2] [1] [1] staleState).best_model
      = some () ∧
    (grid_search zeroFit zeroPerp [2] [1] [1] staleState).scores
      = (gridTriples [2] [1] [1]).map (mkTrial zeroFit zeroPerp) ∧
    ∀ r ∈ grid_search_csv_rows
        (grid_search zeroFit zeroPerp [2] [1] [1] staleState),
      r.coherence_score
        ≠ (grid_search zeroFit zeroPerp [2] [1] [1] staleState).best_score := by
  have h := grid_search_stale_best zeroFit zeroPerp [2] [1] [1] staleState
    (fun t _ => by norm_num [key, zeroFit, staleState])
  exact ⟨h.1, h.2.1, h.2.2.1, h.2.2.2.1, h.2.2.2.2⟩

/-! ## Lemmas about `time_slicer` -/

lemma wsum_append (b : List Int) (l₁ l₂ : List (Int × Nat)) :
    wsum b (l₁ ++ l₂) = wsum b l₁ + wsum b l₂ := by
  simp [wsum]

lemma bump_entry_fst (y : Int) (p : Int × Nat) :
    (if p.1 = y then (p.1, p.2 + 1) else p).1 = p.1 := by
  split <;> rfl

lemma nodupKeys_bump (acc : List (Int × Nat)) (y : Int) (h : NodupKeys acc) :
    NodupKeys (bump acc y) := by
  unfold NodupKeys at *
  unfold bump
  split
  · rw [List.pairwise_map]
    exact h.imp fun hpq => by simpa [bump_entry_fst] using hpq
  · rename_i hany
    rw [List.pairwise_append]
    refine ⟨h, List.pairwise_singleton _ _, ?_⟩
    intro p hp q hq
    simp only [List.mem_singleton] at hq
    subst hq
    simp only [List.any_eq_true, not_exists, not_and] at hany
    have := hany p hp
    simp only [decide_eq_true_eq] at this
    exact this

lemma wsum_bump (b : List Int) (acc : List (Int × Nat)) (y : Int)
    (h : NodupKeys acc) :
    wsum b (bump acc y) = wsum b acc + (if y ∈ b then 1 else 0) := by
  induction acc with
  | nil => simp [bump, wsum]
  | cons p acc ih =>
    rw [NodupKeys, List.pairwise_cons] at h
    obtain ⟨hp, hacc⟩ := h
    by_cases hpy : p.1 = y
    · have hmap : acc.map (fun q => if q.1 = y then (q.1, q.2 + 1) else q)
          = acc := by
        conv_rhs => rw [← List.map_id acc]
        apply List.map_congr_left
        intro q hq
        have hqy : ¬ q.1 = y := fun hqy => hp q hq (hpy.trans hqy.symm)
        simp [hqy]
      have hany : (p :: acc).any (fun q => q.1 = y) = true := by
        simp [hpy]
      rw [bump, if_pos hany, List.map_cons, if_pos hpy, hmap]
      by_cases hyb : y ∈ b <;> · simp [wsum, hpy, hyb]; try ring
    · by_cases hany : acc.any (fun q => q.1 = y) = true
      · have hany' : (p :: acc).any (fun q => q.1 = y) = true := by
          simp only [List.any_cons, hany, Bool.or_true]
        have hbacc : bump acc y
            = acc.map (fun q => if q.1 = y then (q.1, q.2 + 1) else q) := by
          rw [bump, if_pos hany]
        rw [bump, if_pos hany', List.map_cons, if_neg hpy]
        have hih := ih hacc
        rw [hbacc] at hih
        simp only [wsum, List.map_cons, List.sum_cons] at hih ⊢
        omega
      · have hany' : ¬ (p :: acc).any (fun q => q.1 = y) = true := by
          simp only [List.any_cons, Bool.or_eq_true, not_or]
          exact ⟨by simpa using hpy, by simpa using hany⟩
        rw [bump, if_neg hany', wsum_append]
        by_cases hyb : y ∈ b <;> simp [wsum, hyb]

lemma wsum_foldl_bump (b : List Int) (dates : List Int)
    (acc : List (Int × Nat)) (h : NodupKeys acc) :
    wsum b (dates.foldl bump acc)
      = wsum b acc + dates.countP (fun y => decide (y ∈ b)) := by
  induction dates generalizing acc with
  | nil => simp
  | cons d dates ih =>
    have hfold : (d :: dates).foldl bump acc = dates.foldl bump (bump acc d) :=
      rfl
    rw [hfold, ih _ (nodupKeys_bump acc d h), wsum_bump b acc d h,
      List.countP_cons]
    by_cases hd : d ∈ b <;> · simp [hd]; try omega

lemma wsum_year_counts (b : List Int) (dates : List Int) :
    wsum b (year_counts dates) = dates.countP (fun y => decide (y ∈ b)) := by
  have h := wsum_foldl_bump b dates [] (by simp [NodupKeys])
  simpa [year_counts, wsum] using h

lemma addYearToBatches_length (year_batches : List (List Int)) (y : Int)
    (v : Nat) (counts : List Nat) (h : counts.length = year_batches.length) :
    (addYearToBatches year_batches y v counts).length
      = year_batches.length := by
  simp [addYearToBatches, h]

lemma foldl_addYear_length (year_batches : List (List Int))
    (yc : List (Int × Nat)) (counts : List Nat)
    (h : counts.length = year_batches.length) :
    (yc.foldl (fun cs kv => addYearToBatches year_batches kv.1 kv.2 cs)
        counts).length = year_batches.length := by
  induction yc generalizing counts with
  | nil => simpa using h
  | cons kv yc ih => exact ih _ (addYearToBatches_length _ _ _ _ h)

lemma time_slicer_length (dates : List Int)
    (year_batches : List (List Int)) :
    (time_slicer dates year_batches).length = year_batches.length := by
  unfold time_slicer
  exact foldl_addYear_length _ _ _ (by simp)

lemma addYearToBatches_getD (year_batches : List (List Int)) (y : Int)
    (v : Nat) (counts : List Nat) (i : Nat)
    (h : counts.length = year_batches.length) :
    (addYearToBatches year_batches y v counts).getD i 0
      = if y ∈ year_batches.getD i [] then counts.getD i 0 + v
        else counts.getD i 0 := by
  induction year_batches generalizing counts i with
  | nil =>
    have hc : counts = [] := List.eq_nil_of_length_eq_zero (by simpa using h)
    subst hc
    simp [addYearToBatches]
  | cons batch bs ih =>
    cases counts with
    | nil => simp at h
    | cons c cs =>
      cases i with
      | zero => simp [addYearToBatches]
      | succ i =>
        have h' : cs.length = bs.length := by simpa using h
        simpa [addYearToBatches] using ih cs i h'

lemma foldl_addYear_getD (year_batches : List (List Int))
    (yc : List (Int × Nat)) (counts : List Nat) (i : Nat)
    (h : counts.length = year_batches.length) :
    (yc.foldl (fun cs kv => addYearToBatches year_batches kv.1 kv.2 cs)
        counts).getD i 0
      = counts.getD i 0 + wsum (year_batches.getD i []) yc := by
  induction yc generalizing counts with
  | nil => simp [wsum]
  | cons kv yc ih =>
    rw [List.foldl_cons, ih _ (addYearToBatches_length _ _ _ _ h),
      addYearToBatches_getD _ _ _ _ _ h]
    simp only [wsum, List.map_cons, List.sum_cons]
    split_ifs <;> omega

lemma getD_map_zero (year_batches : List (List Int)) (i : Nat) :
    ((year_batches.map fun _ => (0 : Nat)).getD i 0) = 0 := by
  induction year_batches generalizing i with
  | nil => simp
  | cons b bs ih => cases i <;> simp [ih]

lemma time_slicer_getD (dates : List Int) (year_batches : List (List Int))
    (i : Nat) :
    (time_slicer dates year_batches).getD i 0
      = dates.countP (fun y => decide (y ∈ year_batches.getD i [])) := by
  unfold time_slicer
  rw [foldl_addYear_getD _ _ _ _ (by simp), getD_map_zero,
    wsum_year_counts]
  omega

/-- Claim C2: `time_slicer` returns one entry per year batch, in the order
the batches were supplied, and entry `i` equals the number of input
documents whose year falls in batch `i`; a year matching no batch
contributes to no entry and raises no error.  In particular, for
`year_batches = [[2000, 2001], [2002, 2003]]` and years
[2000, 2000, 2002, 2005] the result is [2, 1] (2005 dropped). -/
theorem time_slicer_counts (dates : List Int)
    (year_batches : List (List Int)) (i : Nat) :
    (time_slicer dates year_batches).length = year_batches.length ∧
    (time_slicer dates year_batches).getD i 0
      = dates.countP (fun y => decide (y ∈ year_batches.getD i [])) ∧
    time_slicer [2000, 2000, 2002, 2005] [[2000, 2001], [2002, 2003]]
      = [2, 1] :=
  ⟨time_slicer_length dates year_batches,
   time_slicer_getD dates year_batches i, by decide⟩

/-- Claim C9: a year contained in more than one batch range is counted into
every batch that contains it: each output entry is the full count of
documents whose year falls in its own batch, independent of all other
batches, so for overlapping batches the sum of the output can exceed the
number of documents — one document with year 2000 and two overlapping
batches yield [1, 1], whose sum 2 exceeds the document count 1. -/
theorem time_slicer_overlapping_batches (dates : List Int)
    (year_batches : List (List Int)) :
    time_slicer dates year_batches
      = year_batches.map
          (fun batch => dates.countP fun y => decide (y ∈ batch)) ∧
    time_slicer [2000] [[2000, 2001], [2000, 2002]] = [1, 1] ∧
    ([2000] : List Int).length
      < (time_slicer [2000] [[2000, 2001], [2000, 2002]]).sum := by
  refine ⟨?_, by decide, by decide⟩
  apply List.ext_getElem
  · rw [time_slicer_length]
    simp
  · intro n h1 h2
    have hbn : n < year_batches.length := by
      rw [time_slicer_length] at h1
      exact h1
    rw [← List.getD_eq_getElem (time_slicer dates year_batches) 0 h1,
      time_slicer_getD, List.getElem_map,
      List.getD_eq_getElem year_batches [] hbn]

/-! ## Error handling: `build_best_model`, `viz`, `DTM` -/

/-- Claim C6: `build_best_model` with unset best params raises the
descriptive not-configured `Exception` and produces no model, no saved
file and no export; with best params `(n, alpha, beta)` set it returns a
model re-derived (via `get_coherence_score`) from exactly those recorded
parameters. -/
theorem build_best_model_spec {M : Type} (fit : Nat → ℚ → ℚ → ℚ × M)
    (print_topics : M → List (Nat × String)) (st : LDAState M) :
    (st.best_params = none →
      (build_best_model fit print_topics st).2.result
        = .error (.exception
            "No parameters found for the best model. Make sure you have run the grid search already.") ∧
      ((build_best_model fit print_topics st).2.result).isOk = false ∧
      (build_best_model fit print_topics st).2.saved_models = [] ∧
      (build_best_model fit print_topics st).2.csv_files = []) ∧
    (∀ n alpha beta, st.best_params = some (n, alpha, beta) →
      (build_best_model fit print_topics st).2.result
        = .ok (fit n alpha beta).2) := by
  constructor
  · intro h
    simp [build_best_model, h, Except.isOk, Except.toBool]
  · intro n alpha beta h
    simp [build_best_model, h]

/-- Witness for C6: the unset case at a fresh state and the set case at a
state whose best params are (7, 1, 1). -/
theorem build_best_model_spec_witness :
    ((build_best_model constFit (fun _ => []) (initState Unit)).2.result
        = .error (.exception
            "No parameters found for the best model. Make sure you have run the grid search already.") ∧
      ((build_best_model constFit (fun _ => [])
          (initState Unit)).2.result).isOk = false ∧
      (build_best_model constFit (fun _ => [])
          (initState Unit)).2.saved_models = [] ∧
      (build_best_model constFit (fun _ => [])
          (initState Unit)).2.csv_files = []) ∧
    (build_best_model constFit (fun _ => []) staleState).2.result
      = .ok (constFit 7 1 1).2 :=
  ⟨(build_best_model_spec constFit (fun _ => []) (initState Unit)).1 rfl,
   (build_best_model_spec constFit (fun _ => []) staleState).2 7 1 1 rfl⟩

/-- Claim C7: calling `build_best_model` twice in succession leaves the
instance state untouched (the method assigns no attribute) and, the fit
being deterministic under the pinned random seed, both calls export
identical tabular content to `best_topics.csv`. -/
theorem build_best_model_idempotent {M : Type} (fit : Nat → ℚ → ℚ → ℚ × M)
    (print_topics : M → List (Nat × String)) (st : LDAState M) :
    (build_best_model fit print_topics st).1 = st ∧
    (build_best_model fit print_topics
        ((build_best_model fit print_topics st).1)).2.csv_files
      = (build_best_model fit print_topics st).2.csv_files ∧
    (build_best_model fit print_topics
        ((build_best_model fit print_topics st).1)).2.result
      = (build_best_model fit print_topics st).2.result := by
  have hst : (build_best_model fit print_topics st).1 = st := by
    rcases h : st.best_params with _ | ⟨⟨n, alpha, beta⟩⟩ <;>
      simp [build_best_model, h]
  exact ⟨hst, by rw [hst], by rw [hst]⟩

/-- Claim C8: `viz` raises an invalid-argument `ValueError` for every
`model_type` other than `'best'` or `'simple'`, raises the not-configured
`Exception` when the requested model has not been produced, and in every
error case writes no HTML artifact (empty write list). -/
theorem viz_spec {M V : Type} (prepare : M → V) (st : LDAState M)
    (model_type : String) :
    (model_type ≠ "best" → model_type ≠ "simple" →
      viz prepare st model_type
        = (.error (.valueError
            "Model type not valid. Please select either \"best\" or \"simple\"."),
           [])) ∧
    (st.best_model = none →
      viz prepare st "best"
        = (.error (.exception "No best model found. Run grid_search first."),
           [])) ∧
    (st.simple_model = none →
      viz prepare st "simple"
        = (.error (.exception "No simple model found. Run simple_fit() first."),
           [])) := by
  refine ⟨fun h1 h2 => ?_, fun h => ?_, fun h => ?_⟩
  · simp [viz, h1, h2]
  · simp [viz, h]
  · simp [viz, h]

/-- Witness for C8 at a fresh state: the invalid selector `'dynamic'` and
the two unconfigured selectors. -/
theorem viz_spec_witness :
    viz (fun _ : Unit => ()) (initState Unit) "dynamic"
      = (.error (.valueError
          "Model type not valid. Please select either \"best\" or \"simple\"."),
         []) ∧
    viz (fun _ : Unit => ()) (initState Unit) "best"
      = (.error (.exception "No best model found. Run grid_search first."),
         []) ∧
    viz (fun _ : Unit => ()) (initState Unit) "simple"
      = (.error (.exception "No simple model found. Run simple_fit() first."),
         []) :=
  ⟨(viz_spec (fun _ : Unit => ()) (initState Unit) "dynamic").1
      (by decide) (by decide),
   (viz_spec (fun _ : Unit => ()) (initState Unit) "best").2.1 rfl,
   (viz_spec (fun _ : Unit => ()) (initState Unit) "simple").2.2 rfl⟩

/-- Claim C5, counterexample: invoking `DTM` before any grid search does
fail before writing any file, but the error raised is the Python runtime's
`TypeError` from subscripting the unset `best_params`
(`num_topics = self.best_params[0]`, line 397), not a descriptive
not-configured `Exception` as raised by `build_best_model` and `viz`. -/
theorem DTM_unconfigured_cex :
    (DTM (fun _ _ _ _ => ()) (initState Unit) []
      : Except PyError Unit × List String)
      = (.error (.typeError "NoneType object is not subscriptable"), []) ∧
    (PyError.typeError "NoneType object is not subscriptable").is_not_configured
      = false :=
  ⟨rfl, rfl⟩

/-- Claim C5 as amended: invoking `DTM` before any grid search has set the
Best-Trial State raises an error — the `TypeError` from subscripting the
unset `best_params`, not a descriptive not-configured check — and writes no
files (no model artifact, no per-topic CSVs). -/
theorem DTM_unconfigured {M DM : Type}
    (ldaseq : Option (List Nat) → Nat → ℚ → Option M → DM)
    (st : LDAState M) (year_batches : List (List Int))
    (h : st.best_params = none) :
    DTM ldaseq st year_batches
      = (.error (.typeError "NoneType object is not subscriptable"), []) := by
  simp [DTM, h]

/-- Witness for the amended C5 at a fresh state. -/
theorem DTM_unconfigured_witness :
    DTM (fun _ _ _ _ => ()) (initState Unit) [[2000, 2001]]
      = ((.error (.typeError "NoneType object is not subscriptable")
          : Except PyError Unit), []) :=
  DTM_unconfigured (fun _ _ _ _ => ()) (initState Unit) [[2000, 2001]] rfl

end LDAGrid
